import Mathlib

/-!
Shallow embedding of the `TeamSpeak3` facade class (src/TeamSpeak3.js) of the
teaspeak-nodejs-library repository, together with a spec-modelled command queue
for the transport layer (whose source is not part of the repository snapshot).

JavaScript values that appear in the claims are modelled by the inductive
`Value` (undefined, booleans, integers, strings).  A JavaScript object used as
a command argument record is modelled as an association list in insertion
order: an object-literal property whose value is `undefined` is still a
present key, exactly as in JavaScript.
-/

/-- JavaScript values relevant to the facade's command builders. -/
inductive Value where
  | undef : Value
  | bool : Bool → Value
  | num : Int → Value
  | str : String → Value
deriving DecidableEq, Repr

/-- A JavaScript object in insertion order: keys mapped to values. -/
abbrev ArgRecord := List (String × Value)

/-- Property access `o.k`: a missing key yields `undefined`. -/
def getProp (o : ArgRecord) (k : String) : Value :=
  match o.find? (fun p => p.1 = k) with
  | some p => p.2
  | none => Value.undef

/-- Whether a key is present on the object (`k in o`), regardless of its value. -/
def hasKey (o : ArgRecord) (k : String) : Bool :=
  o.any (fun p => p.1 = k)

/-- JavaScript truthiness of a `Value`. -/
def truthy : Value → Bool
  | Value.undef => false
  | Value.bool b => b
  | Value.num n => n ≠ 0
  | Value.str s => s ≠ ""

/-- JavaScript `a || b`: `a` when truthy, otherwise `b`. -/
def jsOr (a b : Value) : Value :=
  if truthy a then a else b

/-- Numeric value of a list of decimal digits. -/
def digitsVal (cs : List Char) : Nat :=
  cs.foldl (fun acc c => acc * 10 + (c.toNat - '0'.toNat)) 0

/-- Numeric value of a list of hexadecimal digits. -/
def hexDigitsVal (cs : List Char) : Nat :=
  cs.foldl (fun acc c =>
    acc * 16 +
      (if c.isDigit then c.toNat - '0'.toNat
       else if 'a' ≤ c ∧ c ≤ 'f' then c.toNat - 'a'.toNat + 10
       else c.toNat - 'A'.toNat + 10)) 0

/-- Whether a character counts as a hexadecimal digit. -/
def isHexDigit (c : Char) : Bool :=
  c.isDigit || ('a' ≤ c && c ≤ 'f') || ('A' ≤ c && c ≤ 'F')

/-- Parse the unsigned part of a JavaScript `parseInt` input: an optional
`0x`/`0X` prefix selects base 16, otherwise leading decimal digits are read;
`none` when no digit is found (JavaScript `NaN`). -/
def parseIntCore (cs : List Char) : Option Nat :=
  match cs with
  | '0' :: 'x' :: rest =>
      let ds := rest.takeWhile isHexDigit
      if ds.isEmpty then none else some (hexDigitsVal ds)
  | '0' :: 'X' :: rest =>
      let ds := rest.takeWhile isHexDigit
      if ds.isEmpty then none else some (hexDigitsVal ds)
  | _ =>
      let ds := cs.takeWhile Char.isDigit
      if ds.isEmpty then none else some (digitsVal ds)

/-- JavaScript `parseInt` on a string: skip leading whitespace, read an
optional sign and then digits; `none` models `NaN`. -/
def parseIntStr (s : String) : Option Int :=
  let cs := s.toList.dropWhile (fun c => c = ' ' ∨ c = '\t' ∨ c = '\n' ∨ c = '\r')
  match cs with
  | '-' :: rest => (parseIntCore rest).map (fun n => -(n : Int))
  | '+' :: rest => (parseIntCore rest).map (fun n => (n : Int))
  | _ => (parseIntCore cs).map (fun n => (n : Int))

/-- JavaScript `parseInt` on a `Value`: numbers parse to themselves (the model
carries integral numbers only), strings are parsed, `undefined` and booleans
stringify to non-numeric text and give `NaN` (`none`). -/
def parseIntJS : Value → Option Int
  | Value.undef => none
  | Value.bool _ => none
  | Value.num n => some n
  | Value.str s => parseIntStr s

/-- JavaScript `parseInt(v) || d`: the parsed integer when it is a nonzero number,
otherwise the default (`NaN` and `0` are both falsy). -/
def parseIntOr (v : Value) (d : Int) : Int :=
  match parseIntJS v with
  | none => d
  | some n => if n = 0 then d else n

/-- The `_config` record the constructor derives from the caller's `config`
object (src/TeamSpeak3.js lines 52–63). -/
structure TS3Config where
  protocol : Value
  host : Value
  queryport : Int
  serverport : Value
  username : Value
  password : Value
  nickname : Value
  antispam : Bool
  antispamtimer : Int
  keepalive : Bool
deriving DecidableEq, Repr

/-- Observable side effects of the constructor on the transport: whether
`keepAlive()` was invoked, and the argument of `antiSpam(...)` when invoked. -/
structure ConstructorEffects where
  keepAliveCalled : Bool
  antiSpamCalledWith : Option Int
deriving DecidableEq, Repr

/-- The `TeamSpeak3` constructor (src/TeamSpeak3.js lines 50–81): builds
`_config` from the caller's object and conditionally activates the transport's
keepalive and antispam gate. -/
def TeamSpeak3.constructor (config : ArgRecord) : TS3Config × ConstructorEffects :=
  let cfg : TS3Config := {
    protocol := jsOr (getProp config "protocol") (Value.str "raw")
    host := jsOr (getProp config "host") (Value.str "127.0.0.1")
    queryport := parseIntOr (getProp config "queryport") 10011
    serverport :=
      match parseIntJS (getProp config "serverport") with
      | some n => if n = 0 then Value.bool false else Value.num n
      | none => Value.bool false
    username := jsOr (getProp config "username") (Value.bool false)
    password := jsOr (getProp config "password") (Value.bool false)
    nickname := jsOr (getProp config "nickname") (Value.bool false)
    antispam := truthy (getProp config "antispam")
    antispamtimer := parseIntOr (getProp config "antispamtimer") 350
    keepalive := truthy (getProp config "keepalive") }
  (cfg,
   { keepAliveCalled := cfg.keepalive
     antiSpamCalledWith := if cfg.antispam then some cfg.antispamtimer else none })

/-- A thrown JavaScript error. -/
inductive JSError where
  | referenceError : String → JSError
  | typeError : String → JSError
deriving DecidableEq, Repr

/-- One argument of a call into the transport's `execute`: a primitive value,
an argument-record object, or an array (such as a flag list). -/
inductive JSArg where
  | prim : Value → JSArg
  | obj : ArgRecord → JSArg
  | arr : List Value → JSArg
deriving DecidableEq, Repr

/-- A call into the transport's `execute`: the facade's `execute` forwards its
entire `arguments` object, so a call is just the list of arguments passed. -/
abbrev ExecArgs := List JSArg

/-- Method `TeamSpeak3.execute` (src/TeamSpeak3.js lines 342–344): returns
`this._ts3.execute(...arguments)` — the transport's `execute` applied to the
facade caller's arguments, spread unchanged. -/
def TeamSpeak3.execute (transportExecute : ExecArgs → Except JSError Value)
    (args : ExecArgs) : Except JSError Value :=
  transportExecute args

/-- Method `serverGroupAddPerm` (src/TeamSpeak3.js lines 727–734): builds the
property object `{sgid, permsid|permid, permvalue, permskip, permnegated}` and
executes `servergroupaddperm` with it. -/
def serverGroupAddPerm (sgid perm value : Value) (permsid : Bool)
    (skip negate : Value) : String × ArgRecord :=
  let prop : ArgRecord := [("sgid", sgid)]
  let prop := prop ++ [((if permsid then "permsid" else "permid"), perm)]
  let prop := prop ++ [("permvalue", value)]
  let prop := prop ++ [("permskip", skip)]
  let prop := prop ++ [("permnegated", negate)]
  ("servergroupaddperm", prop)

/-- Method `serverStop` (src/TeamSpeak3.js lines 598–600): executes `serverstop` with
the object literal `{sid: sid, reasonmsg: msg}` — both keys are always
present, `reasonmsg` holding `undefined` when the caller omitted `msg`. -/
def serverStop (sid msg : Value) : String × ArgRecord :=
  ("serverstop", [("sid", sid), ("reasonmsg", msg)])

/-- Method `banAdd` (src/TeamSpeak3.js lines 1637–1645): each of `ip`, `name`, `uid`,
`time` is added to the property object only when truthy; `banreason` is always
present as `reason || ""`. -/
def banAdd (ip name uid time reason : Value) : String × ArgRecord :=
  let props : ArgRecord := []
  let props := if truthy ip then props ++ [("ip", ip)] else props
  let props := if truthy name then props ++ [("name", name)] else props
  let props := if truthy uid then props ++ [("uid", uid)] else props
  let props := if truthy time then props ++ [("time", time)] else props
  let props := props ++ [("banreason", jsOr reason (Value.str ""))]
  ("banadd", props)

/-- Method `complainDel` (src/TeamSpeak3.js lines 1607–1612): chooses the command by
`fdbid === false` and adds `fcldbid` to the property object exactly when
`fdbid === false`. -/
def complainDel (tdbid : Value) (fdbid : Value) : String × ArgRecord :=
  let cmd := if fdbid = Value.bool false then "complaindelall" else "complaindel"
  let prop : ArgRecord := [("tcldbid", tdbid)]
  let prop := if fdbid = Value.bool false then prop ++ [("fcldbid", fdbid)] else prop
  (cmd, prop)

/-- Resolve an identifier in a lexical environment; an unbound identifier
throws a `ReferenceError` naming it. -/
def resolveIdent (env : List (String × Value)) (x : String) : Except JSError Value :=
  match env.find? (fun p => p.1 = x) with
  | some p => Except.ok p.2
  | none => Except.error (JSError.referenceError x)

/-- Method `messageUpdate` (src/TeamSpeak3.js lines 1569–1571): the body builds
`{msgid: id, flag: flag}`, resolving the identifiers `id` and `flag` in the
method's scope, whose only bindings are the parameters `id` and `read`. -/
def messageUpdate (id read : Value) : Except JSError (String × ArgRecord) := do
  let env : List (String × Value) := [("id", id), ("read", read)]
  let vid ← resolveIdent env "id"
  let vflag ← resolveIdent env "flag"
  Except.ok ("messageupdateflag", [("msgid", vid), ("flag", vflag)])

/-- JavaScript member call `v.split(sep)`: defined on strings, a `TypeError`
on `undefined` and other non-strings. -/
def jsSplit (v : Value) (sep : String) : Except JSError (List String) :=
  match v with
  | Value.str s => Except.ok (s.splitOn sep)
  | _ => Except.error (JSError.typeError "split")

/-- The `ftInitUpload` request `uploadFile` would issue if it got that far. -/
structure UploadInit where
  path : List String
  name : String
  cid : Value
  cpw : Value
  size : Nat
deriving DecidableEq, Repr

/-- Byte length of the data argument once coerced to a buffer. -/
def byteLength : Value → Nat
  | Value.str s => s.toUTF8.size
  | _ => 0

/-- Method `uploadFile` (src/TeamSpeak3.js lines 2014–2028): the executor's first
statement is `path = name.split("/")`, but `var name` on the next line is
hoisted, so `name` is a local variable still holding `undefined` there; the
rest of the body (pop the file name, coerce the data, call `ftInitUpload`) is
modelled faithfully after that statement. -/
def uploadFile (path data cid cpw : Value) : Except JSError UploadInit := do
  let name : Value := Value.undef
  let parts ← jsSplit name "/"
  let path' := parts.dropLast
  let fname := "/" ++ parts.getLastD ""
  Except.ok { path := path', name := fname, cid := cid, cpw := cpw,
              size := byteLength data }

/-- The facade's five domain-object caches (`_clients`, `_channels`,
`_servergroups`, `_channelgroups`, `_servers`), each a keyed collection. -/
structure CacheState where
  clients : List (String × Value)
  channels : List (String × Value)
  servergroups : List (String × Value)
  channelgroups : List (String × Value)
  servers : List (String × Value)
deriving DecidableEq, Repr

/-- Method `_cacheCleanUp` (src/TeamSpeak3.js lines 2092–2102): waits for the given
promise; on fulfillment it empties the server-group, channel, client and
channel-group caches and forwards the result, on rejection it forwards the
error and touches nothing. -/
def cacheCleanUp (s : CacheState) (promise : Except JSError Value) :
    CacheState × Except JSError Value :=
  match promise with
  | Except.ok res =>
      ({ s with servergroups := [], channels := [], clients := [], channelgroups := [] },
       Except.ok res)
  | Except.error e => (s, Except.error e)

/-- Method `logout` (src/TeamSpeak3.js lines 393–395): `_cacheCleanUp(this.execute("logout"))`. -/
def logout (s : CacheState) (exec : ExecArgs → Except JSError Value) :
    CacheState × Except JSError Value :=
  cacheCleanUp s (exec [JSArg.prim (Value.str "logout")])

/-- Method `useByPort` (src/TeamSpeak3.js lines 461–463):
`_cacheCleanUp(this.execute("use", {port: port}))`. -/
def useByPort (s : CacheState) (exec : ExecArgs → Except JSError Value)
    (port : Value) : CacheState × Except JSError Value :=
  cacheCleanUp s (exec [JSArg.prim (Value.str "use"), JSArg.obj [("port", port)]])

/-- Method `useBySid` (src/TeamSpeak3.js lines 473–475):
`_cacheCleanUp(this.execute("use", [sid]))`. -/
def useBySid (s : CacheState) (exec : ExecArgs → Except JSError Value)
    (sid : Value) : CacheState × Except JSError Value :=
  cacheCleanUp s (exec [JSArg.prim (Value.str "use"), JSArg.arr [sid]])

/-- Modelled from the spec: the transport's Command Queue (spec §4.2), whose
source (`transport/TS3Query`) is not in the repository snapshot.  Commands are
identified by submission number; `inFlight` holds those written to the socket
and awaiting their terminal status line, `queued` the FIFO of commands not yet
written, `completed` the completion order observed by callers, `submitted` the
submission order. -/
structure QueueState where
  inFlight : List Nat
  queued : List Nat
  completed : List Nat
  submitted : List Nat
deriving DecidableEq, Repr

/-- The events the Command Queue reacts to: a caller submitting a command, a
terminal status line arriving, and connection teardown. -/
inductive QueueEvent where
  | submit : Nat → QueueEvent
  | statusLine : QueueEvent
  | teardown : QueueEvent
deriving DecidableEq, Repr

/-- The empty Command Queue. -/
def queueInit : QueueState :=
  { inFlight := [], queued := [], completed := [], submitted := [] }

/-- Modelled from the spec: one Command Queue transition (spec §4.2).
`submit` writes the command immediately when nothing is in flight, otherwise
appends it to the FIFO tail; `onStatusLine` completes the head in-flight
command and, if the FIFO is non-empty, writes the next command and marks it in
flight; `onTeardown` fails every pending command in FIFO order and clears the
queue. -/
def queueStep (s : QueueState) : QueueEvent → QueueState
  | QueueEvent.submit id =>
      if s.inFlight.isEmpty then
        { s with inFlight := [id], submitted := s.submitted ++ [id] }
      else
        { s with queued := s.queued ++ [id], submitted := s.submitted ++ [id] }
  | QueueEvent.statusLine =>
      match s.inFlight with
      | [] => s
      | c :: tl =>
          match s.queued with
          | [] => { s with inFlight := tl, completed := s.completed ++ [c] }
          | q :: rest =>
          { s with inFlight := tl ++ [q], queued := rest, completed := s.completed ++ [c] }
  | QueueEvent.teardown =>
      { s with inFlight := [], queued := [],
               completed := s.completed ++ s.inFlight ++ s.queued }

/-- Run the Command Queue over a trace of events from the empty queue. -/
def queueRun (events : List QueueEvent) : QueueState :=
  events.foldl queueStep queueInit

/-- The Command Queue invariant: submissions are exactly the completions
followed by the in-flight command and the FIFO, at most one command is in
flight, and the FIFO is empty whenever nothing is in flight. -/
def queueInv (s : QueueState) : Prop :=
  s.submitted = s.completed ++ s.inFlight ++ s.queued ∧
  s.inFlight.length ≤ 1 ∧
  (s.inFlight = [] → s.queued = [])

theorem queueInv_init : queueInv queueInit :=
  ⟨rfl, by simp [queueInit], fun _ => rfl⟩

theorem queueInv_step (s : QueueState) (e : QueueEvent) (h : queueInv s) :
    queueInv (queueStep s e) := by
  obtain ⟨h1, h2, h3⟩ := h
  cases e with
  | submit id =>
      cases hfl : s.inFlight with
      | nil =>
          have hq : s.queued = [] := h3 hfl
          rw [hfl] at h1
          refine ⟨?_, ?_, ?_⟩ <;> simp [queueStep, hfl, hq, queueInv, h1]
      | cons c tl =>
          rw [hfl] at h1
          refine ⟨?_, ?_, ?_⟩
          · simp [queueStep, hfl, h1]
          · simpa [queueStep, hfl] using h2
          · simp [queueStep, hfl]
  | statusLine =>
      cases hfl : s.inFlight with
      | nil =>
          have hs : queueStep s QueueEvent.statusLine = s := by
            simp [queueStep, hfl]
          rw [hs]
          exact ⟨h1, h2, h3⟩
      | cons c tl =>
          have htl : tl = [] := by
            cases tl with
            | nil => rfl
            | cons a u => rw [hfl] at h2; simp at h2
          rw [hfl, htl] at h1
          cases hq : s.queued with
          | nil =>
              rw [hq] at h1
              refine ⟨?_, ?_, ?_⟩ <;> simp [queueStep, hfl, hq, htl, h1]
          | cons q rest =>
              rw [hq] at h1
              refine ⟨?_, ?_, ?_⟩ <;> simp [queueStep, hfl, hq, htl, h1]
  | teardown =>
      refine ⟨?_, ?_, ?_⟩ <;> simp [queueStep, h1]

theorem queueRun_inv (events : List QueueEvent) : queueInv (queueRun events) := by
  suffices h : ∀ s, queueInv s → queueInv (events.foldl queueStep s) from
    h queueInit queueInv_init
  induction events with
  | nil => exact fun s hs => hs
  | cons e es ih => exact fun s hs => ih (queueStep s e) (queueInv_step s e hs)

/-- C1: over every trace of submissions, status lines and teardowns, the
Command Queue's observed completion order is a prefix of (hence agrees with)
the submission order, and at most one command is in flight at that point;
quantifying over all traces covers every reachable intermediate state. -/
theorem queue_completions_fifo_at_most_one_inflight (events : List QueueEvent) :
    (queueRun events).completed <+: (queueRun events).submitted ∧
    (queueRun events).inFlight.length ≤ 1 := by
  obtain ⟨h1, h2, _⟩ := queueRun_inv events
  exact ⟨⟨(queueRun events).inFlight ++ (queueRun events).queued,
    by rw [h1, List.append_assoc]⟩, h2⟩

/-- C2: for every `id` and `read`, `messageUpdate` resolves the unbound
identifier `flag` (not among its parameters `id`, `read`) and therefore
throws a `ReferenceError` instead of executing `messageupdateflag`. -/
theorem messageUpdate_throws_reference_error (id read : Value) :
    messageUpdate id read = Except.error (JSError.referenceError "flag") := rfl

/-- C3: the facade's `execute` returns exactly the transport's `execute`
applied to the same command name, argument record and flag list, forwarded
unchanged and in the same order. -/
theorem execute_forwards_to_transport
    (transportExecute : ExecArgs → Except JSError Value)
    (commandName : String) (argumentsRecord : ArgRecord) (flagList : List Value) :
    TeamSpeak3.execute transportExecute
        [JSArg.prim (Value.str commandName), JSArg.obj argumentsRecord,
         JSArg.arr flagList] =
      transportExecute
        [JSArg.prim (Value.str commandName), JSArg.obj argumentsRecord,
         JSArg.arr flagList] := rfl

/-- C4: `serverGroupAddPerm` with `permsid = false` executes
`servergroupaddperm` with exactly the fields `sgid`, `permid`, `permvalue`,
`permskip`, `permnegated` (in the order of the spec's example wire line), and
with `permsid = true` the `permid` key is replaced by `permsid`. -/
theorem serverGroupAddPerm_builds_record (sgid perm value skip negate : Value) :
    serverGroupAddPerm sgid perm value false skip negate =
      ("servergroupaddperm",
        [("sgid", sgid), ("permid", perm), ("permvalue", value),
         ("permskip", skip), ("permnegated", negate)]) ∧
    serverGroupAddPerm sgid perm value true skip negate =
      ("servergroupaddperm",
        [("sgid", sgid), ("permsid", perm), ("permvalue", value),
         ("permskip", skip), ("permnegated", negate)]) :=
  ⟨rfl, rfl⟩

/-- C5: with antispam enabled, the interval handed to the antispam gate is 350
when `antispamtimer` is absent or does not parse to a nonzero integer, and is
`n` when it parses to a nonzero integer `n`. -/
theorem antispam_timer_value (config : ArgRecord)
    (hspam : truthy (getProp config "antispam") = true) :
    ((parseIntJS (getProp config "antispamtimer") = none ∨
      parseIntJS (getProp config "antispamtimer") = some 0) →
      (TeamSpeak3.constructor config).2.antiSpamCalledWith = some 350) ∧
    (∀ n : Int, n ≠ 0 → parseIntJS (getProp config "antispamtimer") = some n →
      (TeamSpeak3.constructor config).2.antiSpamCalledWith = some n) := by
  constructor
  · intro h
    rcases h with h | h <;> simp [TeamSpeak3.constructor, parseIntOr, hspam, h]
  · intro n hn h
    simp [TeamSpeak3.constructor, parseIntOr, hspam, h, hn]

theorem antispam_timer_value_witness :
    truthy (getProp [("antispam", Value.bool true)] "antispam") = true ∧
    (TeamSpeak3.constructor [("antispam", Value.bool true)]).2.antiSpamCalledWith
      = some 350 ∧
    (TeamSpeak3.constructor
        [("antispam", Value.bool true), ("antispamtimer", Value.num 100)]
      ).2.antiSpamCalledWith = some 100 :=
  ⟨by decide,
   (antispam_timer_value [("antispam", Value.bool true)] (by decide)).1
     (Or.inl (by decide)),
   (antispam_timer_value
       [("antispam", Value.bool true), ("antispamtimer", Value.num 100)]
       (by decide)).2 100 (by decide) (by decide)⟩

/-- C6: the constructor calls the transport's `keepAlive` iff
`config.keepalive` is truthy and its `antiSpam` iff `config.antispam` is
truthy; with an empty configuration object neither is activated, despite the
documented default `keepalive = true`. -/
theorem keepalive_antispam_activation (config : ArgRecord) :
    (TeamSpeak3.constructor config).2.keepAliveCalled
        = truthy (getProp config "keepalive") ∧
    (TeamSpeak3.constructor config).2.antiSpamCalledWith.isSome
        = truthy (getProp config "antispam") ∧
    (TeamSpeak3.constructor []).2.keepAliveCalled = false ∧
    (TeamSpeak3.constructor []).2.antiSpamCalledWith = none := by
  refine ⟨rfl, ?_, by decide, by decide⟩
  by_cases h : truthy (getProp config "antispam") <;>
    simp [TeamSpeak3.constructor, h]

theorem serverStop_reasonmsg_present :
    hasKey (serverStop (Value.num 1) Value.undef).2 "reasonmsg" = true := by
  decide

/-- C7 (amended): in `banAdd` each optional field is present in the record iff
the caller supplied a truthy value, but `serverStop` always passes the
`reasonmsg` key, holding `undefined` when `msg` is not supplied, rather than
omitting it. -/
theorem optional_fields_in_records (ip nm uid time reason sid msg : Value) :
    hasKey (banAdd ip nm uid time reason).2 "ip" = truthy ip ∧
    hasKey (banAdd ip nm uid time reason).2 "name" = truthy nm ∧
    hasKey (banAdd ip nm uid time reason).2 "uid" = truthy uid ∧
    hasKey (banAdd ip nm uid time reason).2 "time" = truthy time ∧
    serverStop sid msg = ("serverstop", [("sid", sid), ("reasonmsg", msg)]) := by
  refine ⟨?_, ?_, ?_, ?_, rfl⟩ <;>
    by_cases h1 : truthy ip <;> by_cases h2 : truthy nm <;>
    by_cases h3 : truthy uid <;> by_cases h4 : truthy time <;>
    simp [banAdd, hasKey, h1, h2, h3, h4]

/-- C8: `uploadFile` always rejects with the `TypeError` raised by calling
`.split` on the hoisted, still-`undefined` local `name`, for every `path`,
`data`, `cid`, `cpw`; no file transfer is ever initiated. -/
theorem uploadFile_always_rejects (path data cid cpw : Value) :
    uploadFile path data cid cpw = Except.error (JSError.typeError "split") := rfl

/-- C9: `complainDel` executes `complaindel` with only `tcldbid` when `fdbid`
is not `false`, and `complaindelall` with `{tcldbid, fcldbid: false}` when
`fdbid` is `false` — the guard adding `fcldbid` fires exactly on `false`. -/
theorem complainDel_fcldbid_guard (tdbid fdbid : Value) :
    (fdbid ≠ Value.bool false →
      complainDel tdbid fdbid = ("complaindel", [("tcldbid", tdbid)])) ∧
    complainDel tdbid (Value.bool false) =
      ("complaindelall", [("tcldbid", tdbid), ("fcldbid", Value.bool false)]) := by
  constructor
  · intro h
    simp [complainDel, h]
  · simp [complainDel]

theorem complainDel_fcldbid_guard_witness :
    Value.num 2 ≠ Value.bool false ∧
    complainDel (Value.num 1) (Value.num 2) =
      ("complaindel", [("tcldbid", Value.num 1)]) ∧
    complainDel (Value.num 1) (Value.bool false) =
      ("complaindelall",
        [("tcldbid", Value.num 1), ("fcldbid", Value.bool false)]) :=
  ⟨by decide,
   (complainDel_fcldbid_guard (Value.num 1) (Value.num 2)).1 (by decide),
   (complainDel_fcldbid_guard (Value.num 1) (Value.num 2)).2⟩

/-- C10: when `logout`, `useByPort` or `useBySid` resolves, the client,
channel, server-group and channel-group caches are emptied and the servers
cache is unchanged; when the underlying command rejects, no cache changes. -/
theorem logout_use_cache_frame (s : CacheState)
    (exec : ExecArgs → Except JSError Value) (port sid : Value) :
    (∀ m ∈ [logout s exec, useByPort s exec port, useBySid s exec sid],
      (∀ r : Value, m.2 = Except.ok r →
        m.1 = { clients := [], channels := [], servergroups := [],
                channelgroups := [], servers := s.servers }) ∧
      (∀ e : JSError, m.2 = Except.error e → m.1 = s)) := by
  intro m hm
  have key : ∀ p : Except JSError Value,
      (∀ r : Value, (cacheCleanUp s p).2 = Except.ok r →
        (cacheCleanUp s p).1 = ⟨[], [], [], [], s.servers⟩) ∧
      (∀ e : JSError, (cacheCleanUp s p).2 = Except.error e →
        (cacheCleanUp s p).1 = s) := by
    intro p
    cases p with
    | ok r => exact ⟨fun _ _ => rfl, fun e he => by simp [cacheCleanUp] at he⟩
    | error e => exact ⟨fun r hr => by simp [cacheCleanUp] at hr, fun _ _ => rfl⟩
  simp only [List.mem_cons, List.mem_singleton] at hm
  rcases hm with h | h | h | h
  · exact h ▸ key _
  · exact h ▸ key _
  · exact h ▸ key _
  · cases h

theorem logout_use_cache_frame_witness :
    (logout ⟨[("1", Value.num 1)], [], [], [], [("s", Value.num 7)]⟩
        (fun _ => Except.ok (Value.num 0))).1
      = { clients := [], channels := [], servergroups := [],
          channelgroups := [], servers := [("s", Value.num 7)] } ∧
    (logout ⟨[("1", Value.num 1)], [], [], [], [("s", Value.num 7)]⟩
        (fun _ => Except.error (JSError.typeError "x"))).1
      = ⟨[("1", Value.num 1)], [], [], [], [("s", Value.num 7)]⟩ :=
  ⟨((logout_use_cache_frame
      ⟨[("1", Value.num 1)], [], [], [], [("s", Value.num 7)]⟩
      (fun _ => Except.ok (Value.num 0)) (Value.num 0) (Value.num 0))
      _ (by simp)).1 (Value.num 0) rfl,
   ((logout_use_cache_frame
      ⟨[("1", Value.num 1)], [], [], [], [("s", Value.num 7)]⟩
      (fun _ => Except.error (JSError.typeError "x")) (Value.num 0) (Value.num 0))
      _ (by simp)).2 (JSError.typeError "x") rfl⟩
